import Mathlib

/-!
Shallow embedding of the IFD (Instruction Following Difficulty) scoring engine
in `src/core.py` of the qna-scoring repository, together with theorems settling
the specification claims about it.

Modelling conventions:
* Python floats are modelled as exact rationals (`ℚ`); `round(x, 3)` is modelled
  by `round3` (round to the nearest multiple of 1/1000).
* Python string operations (`replace`, `split`, `lower`, substring `in`) are
  modelled structurally over the character list `String.data`, so that every
  definition computes by kernel reduction.
* The external scoring model is an oracle: each upstream call either returns a
  response string or raises an error message (`Except String String`).  The
  module-level OpenAI client being initialized is the boolean `configured`.
* Prompt construction (including the 200-character answer truncation, which
  only affects what the scorer sees) does not constrain the oracle, which is
  universally quantified, so it is not reproduced here.
* Progress-callback invocations are side effects with no influence on the
  returned data and are omitted.
-/

namespace QnaScoring

/-- A question/answer pair, the input entity.  `dict.get` defaults of the code
are reflected by all three fields being plain strings (missing keys read as `""`). -/
structure Pair where
  question : String
  answer : String
  source : String
deriving Repr, DecidableEq

/-- Difficulty tier, `"easy" | "medium" | "hard"` in the code. -/
inductive Tier
  | easy
  | medium
  | hard
deriving Repr, DecidableEq

/-- Value category, `"low" | "medium" | "high"` in the code. -/
inductive Category
  | low
  | medium
  | high
deriving Repr, DecidableEq

/-- The dictionary returned by `calculate_ifd_score`. -/
structure IfdResult where
  ifd_score : ℚ
  conditioned_score : ℚ
  direct_score : ℚ
  tier : Tier
  value_category : Category
  recommendation : String
deriving Repr, DecidableEq

/-- An output row of the batch pipeline: the original pair fields plus the
score fields (`results.append({...})` in `calculate_batch_ifd_scores`, and
`pair.copy(); scored_pair.update(ifd_result)` in `batch_score_pairs_ifd`). -/
structure ScoredPair where
  question : String
  answer : String
  source : String
  ifd_score : ℚ
  conditioned_score : ℚ
  direct_score : ℚ
  tier : Tier
  value_category : Category
  recommendation : String
deriving Repr, DecidableEq

/-- Python `min(1.0, max(0.0, q))` as it appears throughout the code. -/
def clamp01 (q : ℚ) : ℚ := min 1 (max 0 q)

/-- Python `round(q, 3)`: round to the nearest multiple of 1/1000.  (Python uses
round-half-even on binary floats; no value in this development lands on a tie,
so nearest-rounding is an exact model at every point the claims touch.) -/
def round3 (q : ℚ) : ℚ := ((round (q * 1000) : ℤ) : ℚ) / 1000

/-- Python `str.lower()` (ASCII, which covers every string the code compares). -/
def toLowerChars (l : List Char) : List Char := l.map Char.toLower

/-- Python's substring test `pat in hay`. -/
def containsChars (hay pat : List Char) : Bool :=
  (List.range (hay.length + 1)).any fun i => pat.isPrefixOf (hay.drop i)

/-- Python `str.split(sep)` for a one-character separator: keeps empty pieces,
and yields `[""]` on the empty string. -/
def splitOnP (p : Char → Bool) : List Char → List (List Char)
  | [] => [[]]
  | c :: rest =>
    if p c then [] :: splitOnP p rest
    else
      match splitOnP p rest with
      | [] => [[c]]
      | w :: ws => (c :: w) :: ws

/-- The error-message rewriting in `chat`'s `except` clause (`"429"`/rate limit,
`"401"`/unauthorized, generic `"API error: ..."`). -/
def translateError (msg : String) : String :=
  if containsChars msg.data "429".data
      || containsChars (toLowerChars msg.data) "rate limit".data then
    "API rate limit exceeded. Please try again later or upgrade your plan."
  else if containsChars msg.data "401".data
      || containsChars (toLowerChars msg.data) "unauthorized".data then
    "Invalid API key. Please check your credentials."
  else
    "API error: " ++ msg

/-- The function `chat(model, system, user, temperature)`: raises
`ValueError("OpenAI client not initialized. Check API credentials.")` when the
module-level client is `None`; otherwise performs the upstream call, translating
an upstream exception into a `ValueError` with a rewritten message.  The
`model`/`system`/`user`/`temperature` arguments only shape the upstream request,
which is abstracted by the `upstream` oracle value. -/
def chat (configured : Bool) (upstream : Except String String) : Except String String :=
  if configured then
    match upstream with
    | Except.ok s => Except.ok s
    | Except.error e => Except.error (translateError e)
  else
    Except.error "OpenAI client not initialized. Check API credentials."

/-- Python `[int(c) for c in response if c.isdigit()]`. -/
def digitVals (s : String) : List ℕ :=
  (s.data.filter Char.isDigit).map fun c => c.toNat - 48

/-- Python `nums[0] if nums else 5`: the first digit character found anywhere in the
response, defaulting to 5. -/
def firstDigit (s : String) : ℕ := (digitVals s).headD 5

/-- The tier thresholds shared verbatim by `calculate_ifd_score` (step 4) and
phase 3 of `calculate_batch_ifd_scores`. -/
def tierOf (ifd : ℚ) : Tier :=
  if ifd < 33/100 then Tier.easy
  else if ifd < 67/100 then Tier.medium
  else Tier.hard

/-- The value-category thresholds and recommendation texts shared verbatim by
both scoring paths. -/
def valueOf (ifd : ℚ) : Category × String :=
  if 7/10 < ifd then (Category.high, "High value - prioritize for training")
  else if 4/10 < ifd then (Category.medium, "Medium value - useful data")
  else (Category.low, "Low value - less useful for training")

/-- The fixed technical-term lexicon of `estimate_ifd_heuristic`. -/
def technical_terms : List String :=
  ["arkeologi", "interpretasi", "analisis", "metodologi",
   "sinergis", "fenomenologi", "epistemologi", "ontologi",
   "deskriptif", "kualitatif", "kuantitatif", "empiris"]

/-- Python `answer.lower().split()`: whitespace-delimited words, empties discarded. -/
def wordsOf (answer : String) : List (List Char) :=
  (splitOnP Char.isWhitespace (toLowerChars answer.data)).filter fun w => w ≠ []

/-- Python `sum(1 for term in technical_terms if term in answer.lower())`. -/
def techCount (answer : String) : ℕ :=
  (technical_terms.filter fun t => containsChars (toLowerChars answer.data) t.data).length

/-- The function `estimate_ifd_heuristic(answer, question)`: vocabulary diversity (0.3),
technical-term density (0.3) and length factor (0.4), summed and clamped. -/
def estimate_ifd_heuristic (answer : String) : ℚ :=
  let words := wordsOf answer
  if words = [] then 0
  else
    let vocab_diversity : ℚ := (words.dedup.length : ℚ) / (words.length : ℚ)
    let technical_density : ℚ := (techCount answer : ℚ) / ((max words.length 1 : ℕ) : ℚ)
    let length_factor : ℚ := min ((words.length : ℚ) / 200) 1
    clamp01 (vocab_diversity * (3/10) + technical_density * (3/10) + length_factor * (4/10))

/-- Step 3 of `calculate_ifd_score`: ratio then shift-and-scale when
`direct_score > 0`, otherwise the conditioned score unchanged. -/
def singleIfdRaw (conditioned_score direct_score : ℚ) : ℚ :=
  if 0 < direct_score then
    clamp01 ((conditioned_score / direct_score - 1/2) / (3/2))
  else conditioned_score

/-- The early return of `calculate_ifd_score` for a pair with an empty question
or answer (no rounding is applied on this path). -/
def invalidPairResult : IfdResult :=
  { ifd_score := 0
    conditioned_score := 0
    direct_score := 0
    tier := Tier.medium
    value_category := Category.low
    recommendation := "Invalid pair - missing question or answer" }

/-- The `except` clause of `calculate_ifd_score`: heuristic score, zeroed
conditioned/direct scores, tier and category fixed to medium, and the error
message embedded in the recommendation; the final dictionary applies
`round(-, 3)` to the numeric fields. -/
def heuristicFallback (answer : String) (errMsg : String) : IfdResult :=
  { ifd_score := round3 (estimate_ifd_heuristic answer)
    conditioned_score := round3 0
    direct_score := round3 0
    tier := Tier.medium
    value_category := Category.medium
    recommendation := "Heuristic scoring: " ++ errMsg }

/-- Steps 1-4 of `calculate_ifd_score` when both upstream calls succeed:
parse the first digit of each response (default 5), normalize by 10, combine
via `singleIfdRaw`, then build the result dictionary (numeric fields rounded
to three decimals in the final `return`). -/
def singleSuccess (condResp dirResp : String) : IfdResult :=
  let conditioned_score : ℚ := (firstDigit condResp : ℚ) / 10
  let direct_score : ℚ := (firstDigit dirResp : ℚ) / 10
  let raw := singleIfdRaw conditioned_score direct_score
  { ifd_score := round3 raw
    conditioned_score := round3 conditioned_score
    direct_score := round3 direct_score
    tier := tierOf raw
    value_category := (valueOf raw).1
    recommendation := (valueOf raw).2 }

/-- The function `calculate_ifd_score(pair, source_text)`.  `condUp`/`dirUp` are the oracle
outcomes of the two upstream calls (conditioned prompt, then direct prompt). -/
def calculate_ifd_score (configured : Bool) (condUp dirUp : Except String String)
    (pair : Pair) : IfdResult :=
  if pair.question = "" ∨ pair.answer = "" then invalidPairResult
  else
    match chat configured condUp with
    | Except.error e => heuristicFallback pair.answer e
    | Except.ok condResp =>
      match chat configured dirUp with
      | Except.error e => heuristicFallback pair.answer e
      | Except.ok dirResp => singleSuccess condResp dirResp

/-- The function `batch_score_pairs_ifd(pairs, source_text)`: the one-by-one loop over
`calculate_ifd_score`, merging each pair with its scores.  `condUps i`/`dirUps i`
are the oracle outcomes of pair `i`'s two upstream calls. -/
def batch_score_pairs_ifd (configured : Bool) (condUps dirUps : ℕ → Except String String)
    (pairs : List Pair) : List ScoredPair :=
  pairs.enum.map fun p =>
    let r := calculate_ifd_score configured (condUps p.1) (dirUps p.1) p.2
    { question := p.2.question
      answer := p.2.answer
      source := p.2.source
      ifd_score := r.ifd_score
      conditioned_score := r.conditioned_score
      direct_score := r.direct_score
      tier := r.tier
      value_category := r.value_category
      recommendation := r.recommendation }

/-- One comma-delimited token of a batch response: keep the digit characters,
read them as an integer (`int` of no digits raises, caught to 0.5), accept only
1..10 (divided by 10), otherwise the neutral 0.5. -/
def parseToken (tok : List Char) : ℚ :=
  let digits := tok.filter Char.isDigit
  if digits = [] then 1/2
  else
    let num := digits.foldl (fun acc c => 10 * acc + (c.toNat - 48)) (0 : ℕ)
    if 1 ≤ num ∧ num ≤ 10 then (num : ℚ) / 10 else 1/2

/-- The batch response parser of both phases:
`response.replace(' ', '').split(',')`, parse each token, pad with 0.5 up to
the batch size `n`, truncate to `n`. -/
def parseScores (response : String) (n : ℕ) : List ℚ :=
  let score_strs := splitOnP (fun c => c == ',') (response.data.filter fun c => c ≠ ' ')
  let scores := score_strs.map parseToken
  let padded := scores ++ List.replicate (n - scores.length) (1/2)
  padded.take n

/-- Python `[pairs[i:i+batch_size] for i in range(0, len(pairs), batch_size)]`,
written with explicit fuel so that it computes by reduction; `bs` positive and
fuel `≥ l.length` reproduce the Python comprehension exactly (the code never
runs it otherwise: Python `range` rejects a zero step). -/
def toBatchesAux {α : Type} (bs : ℕ) : ℕ → List α → List (List α)
  | _, [] => []
  | 0, _ :: _ => []
  | fuel+1, a :: t => ((a :: t).take bs) :: toBatchesAux bs fuel ((a :: t).drop bs)

/-- The batch partition of the input sequence. -/
def toBatches {α : Type} (bs : ℕ) (l : List α) : List (List α) :=
  toBatchesAux bs l.length l

/-- One scoring phase of `calculate_batch_ifd_scores`: for each batch in order,
one `chat` call; on success parse the response against the batch length, on any
exception extend with `0.5` for every pair of the batch.  `idx` is the running
batch index (it selects the oracle outcome of that call). -/
def phase_scores (configured : Bool) (oracle : ℕ → Except String String) :
    ℕ → List (List Pair) → List ℚ
  | _, [] => []
  | idx, b :: rest =>
    (match chat configured (oracle idx) with
     | Except.ok response => parseScores response b.length
     | Except.error _ => List.replicate b.length (1/2)) ++
      phase_scores configured oracle (idx + 1) rest

/-- The accumulator (`conditioned_scores` or `direct_scores`) that a phase of
`calculate_batch_ifd_scores` builds for a given input and oracle. -/
def phaseScoresOf (configured : Bool) (oracle : ℕ → Except String String)
    (pairs : List Pair) (batch_size : ℕ) : List ℚ :=
  phase_scores configured oracle 0 (toBatches batch_size pairs)

/-- Phase 3 IFD formula: ratio divided by 3 and clamped when `direct > 0`,
otherwise the conditioned score unchanged. -/
def batchIfdRaw (conditioned direct : ℚ) : ℚ :=
  if 0 < direct then clamp01 ((conditioned / direct) / 3)
  else conditioned

/-- The record appended to `results` for one pair in phase 3 of
`calculate_batch_ifd_scores`. -/
def finalizePair (pair : Pair) (conditioned direct : ℚ) : ScoredPair :=
  let raw := batchIfdRaw conditioned direct
  { question := pair.question
    answer := pair.answer
    source := pair.source
    ifd_score := round3 raw
    conditioned_score := round3 conditioned
    direct_score := round3 direct
    tier := tierOf raw
    value_category := (valueOf raw).1
    recommendation := (valueOf raw).2 }

/-- The function `calculate_batch_ifd_scores(pairs, batch_size, progress_callback)`:
phase 1 (conditioned), phase 2 (direct), then phase 3 pairing
`conditioned_scores[i]`/`direct_scores[i]` (defaulting to 0.5 past the end)
into the final records.  `condOracle i`/`dirOracle i` are the oracle outcomes
of batch `i`'s call in the respective phase. -/
def calculate_batch_ifd_scores (configured : Bool)
    (condOracle dirOracle : ℕ → Except String String)
    (pairs : List Pair) (batch_size : ℕ) : List ScoredPair :=
  let conditioned_scores := phaseScoresOf configured condOracle pairs batch_size
  let direct_scores := phaseScoresOf configured dirOracle pairs batch_size
  pairs.enum.map fun p =>
    finalizePair p.2 (conditioned_scores.getD p.1 (1/2)) (direct_scores.getD p.1 (1/2))

/-- The ten quantized score levels a stored batch phase score can take:
a parsed in-range digit divided by 10 (0.5 being also the neutral sentinel). -/
def scoreSet (x : ℚ) : Prop := ∃ k : ℕ, 1 ≤ k ∧ k ≤ 10 ∧ x = (k : ℚ) / 10

/-- Joint consistency of a value category and a recommendation text. -/
def catRecConsistent (c : Category) (r : String) : Prop :=
  (c = Category.high → r = "High value - prioritize for training")
  ∧ (c = Category.medium → r = "Medium value - useful data")
  ∧ (c = Category.low → r = "Low value - less useful for training")

/-- Concrete pair used to instantiate hypotheses in witnesses. -/
def exPair : Pair := { question := "Q", answer := "A", source := "" }

/-- Concrete empty pair. -/
def emptyPair : Pair := { question := "", answer := "", source := "" }

/-- Oracle whose every call raises. -/
def errOracle : ℕ → Except String String := fun _ => Except.error "boom"

/-! ### Auxiliary lemmas -/

theorem clamp01_nonneg (q : ℚ) : 0 ≤ clamp01 q :=
  le_min (by norm_num) (le_max_left 0 q)

theorem clamp01_le_one (q : ℚ) : clamp01 q ≤ 1 :=
  min_le_left 1 _

theorem round3_nonneg {q : ℚ} (h : 0 ≤ q) : 0 ≤ round3 q := by
  unfold round3
  have h1 : (0 : ℤ) ≤ round (q * 1000) := by
    rw [round_eq]
    have : (0 : ℚ) ≤ q * 1000 + 1/2 := by nlinarith
    exact Int.floor_nonneg.mpr this
  positivity

theorem round3_le_one {q : ℚ} (h : q ≤ 1) : round3 q ≤ 1 := by
  unfold round3
  have h1 : round (q * 1000) ≤ 1000 := by
    rw [round_eq]
    have h2 : q * 1000 + 1/2 ≤ 1000 + 1/2 := by nlinarith
    calc ⌊q * 1000 + 1/2⌋ ≤ ⌊(1000 : ℚ) + 1/2⌋ := Int.floor_le_floor h2
      _ = 1000 := by norm_num [Int.floor_eq_iff]
  have h2 : ((round (q * 1000) : ℤ) : ℚ) ≤ 1000 := by exact_mod_cast h1
  linarith

theorem round3_zero : round3 0 = 0 := by
  unfold round3
  norm_num [round_eq]

theorem scoreSet_half : scoreSet (1/2) :=
  ⟨5, by norm_num⟩

theorem scoreSet_pos {x : ℚ} (h : scoreSet x) : 0 < x := by
  obtain ⟨k, hk1, _, rfl⟩ := h
  positivity

theorem scoreSet_nonneg {x : ℚ} (h : scoreSet x) : 0 ≤ x :=
  le_of_lt (scoreSet_pos h)

theorem scoreSet_le_one {x : ℚ} (h : scoreSet x) : x ≤ 1 := by
  obtain ⟨k, _, hk10, rfl⟩ := h
  rw [div_le_one (by norm_num)]
  exact_mod_cast by exact_mod_cast hk10.trans (by norm_num : (10:ℕ) ≤ 10)

theorem round3_scoreSet {x : ℚ} (h : scoreSet x) : round3 x = x := by
  obtain ⟨k, _, _, rfl⟩ := h
  unfold round3
  have h1 : (k : ℚ) / 10 * 1000 = ((100 * k : ℕ) : ℚ) := by push_cast; ring
  rw [h1, round_natCast]
  push_cast
  ring

theorem parseToken_scoreSet (tok : List Char) : scoreSet (parseToken tok) := by
  simp only [parseToken]
  split
  · exact scoreSet_half
  · split
    · next h => exact ⟨_, h.1, h.2, rfl⟩
    · exact scoreSet_half

theorem parseScores_length (response : String) (n : ℕ) :
    (parseScores response n).length = n := by
  unfold parseScores
  simp [List.length_take, List.length_append]
  omega

theorem parseScores_scoreSet (response : String) (n : ℕ) :
    ∀ x ∈ parseScores response n, scoreSet x := by
  intro x hx
  unfold parseScores at hx
  have hx2 := List.mem_of_mem_take hx
  rcases List.mem_append.mp hx2 with h | h
  · obtain ⟨tok, _, rfl⟩ := List.mem_map.mp h
    exact parseToken_scoreSet tok
  · rw [List.eq_of_mem_replicate h]
    exact scoreSet_half

theorem phase_scores_length (configured : Bool) (oracle : ℕ → Except String String)
    (idx : ℕ) (batches : List (List Pair)) :
    (phase_scores configured oracle idx batches).length = (batches.map List.length).sum := by
  induction batches generalizing idx with
  | nil => rfl
  | cons b rest ih =>
    unfold phase_scores
    rw [List.length_append, ih (idx + 1)]
    simp only [List.map_cons, List.sum_cons]
    congr 1
    split
    · next response _ => exact parseScores_length response b.length
    · exact List.length_replicate b.length _

theorem phase_scores_scoreSet (configured : Bool) (oracle : ℕ → Except String String)
    (idx : ℕ) (batches : List (List Pair)) :
    ∀ x ∈ phase_scores configured oracle idx batches, scoreSet x := by
  induction batches generalizing idx with
  | nil => intro x hx; cases hx
  | cons b rest ih =>
    intro x hx
    unfold phase_scores at hx
    rcases List.mem_append.mp hx with h | h
    · revert h
      split
      · next response _ => exact fun h => parseScores_scoreSet response b.length x h
      · intro h
        rw [List.eq_of_mem_replicate h]
        exact scoreSet_half
    · exact ih (idx + 1) x h

theorem phaseScoresOf_scoreSet (configured : Bool) (oracle : ℕ → Except String String)
    (pairs : List Pair) (bs : ℕ) :
    ∀ x ∈ phaseScoresOf configured oracle pairs bs, scoreSet x :=
  phase_scores_scoreSet configured oracle 0 (toBatches bs pairs)

theorem getD_scoreSet {L : List ℚ} (h : ∀ x ∈ L, scoreSet x) (i : ℕ) :
    scoreSet (L.getD i (1/2)) := by
  rcases lt_or_le i L.length with hi | hi
  · rw [List.getD_eq_getElem L _ hi]
    exact h _ (List.getElem_mem hi)
  · rw [List.getD_eq_default L _ hi]
    exact scoreSet_half

theorem toBatchesAux_flatten {α : Type} (bs : ℕ) (hbs : 0 < bs) :
    ∀ (fuel : ℕ) (l : List α), l.length ≤ fuel → (toBatchesAux bs fuel l).flatten = l := by
  intro fuel
  induction fuel with
  | zero =>
    intro l hl
    rw [List.length_eq_zero.mp (Nat.le_zero.mp hl)]
    rfl
  | succ n ih =>
    intro l hl
    cases l with
    | nil => rfl
    | cons a t =>
      show ((a :: t).take bs ++ (toBatchesAux bs n ((a :: t).drop bs)).flatten) = a :: t
      have hlen : ((a :: t).drop bs).length ≤ n := by
        simp only [List.length_drop, List.length_cons]
        simp only [List.length_cons] at hl
        omega
      rw [ih ((a :: t).drop bs) hlen]
      exact List.take_append_drop bs (a :: t)

theorem toBatches_flatten {α : Type} (bs : ℕ) (hbs : 0 < bs) (l : List α) :
    (toBatches bs l).flatten = l :=
  toBatchesAux_flatten bs hbs l.length l le_rfl

theorem phaseScoresOf_length (configured : Bool) (oracle : ℕ → Except String String)
    (pairs : List Pair) (bs : ℕ) (hbs : 0 < bs) :
    (phaseScoresOf configured oracle pairs bs).length = pairs.length := by
  unfold phaseScoresOf
  rw [phase_scores_length, ← List.length_flatten, toBatches_flatten bs hbs]

theorem getElem?_enum_map {α β : Type} (l : List α) (f : ℕ × α → β) (i : ℕ) :
    (l.enum.map f)[i]? = l[i]?.map fun a => f (i, a) := by
  rw [List.getElem?_map, List.getElem?_enum]
  cases l[i]? <;> rfl

theorem calculate_batch_getElem? (configured : Bool)
    (cO dO : ℕ → Except String String) (pairs : List Pair) (bs i : ℕ) :
    (calculate_batch_ifd_scores configured cO dO pairs bs)[i]?
      = pairs[i]?.map fun p =>
          finalizePair p ((phaseScoresOf configured cO pairs bs).getD i (1/2))
            ((phaseScoresOf configured dO pairs bs).getD i (1/2)) := by
  show (pairs.enum.map fun p =>
      finalizePair p.2 ((phaseScoresOf configured cO pairs bs).getD p.1 (1/2))
        ((phaseScoresOf configured dO pairs bs).getD p.1 (1/2)))[i]? = _
  rw [getElem?_enum_map]

theorem calculate_batch_length (configured : Bool)
    (cO dO : ℕ → Except String String) (pairs : List Pair) (bs : ℕ) :
    (calculate_batch_ifd_scores configured cO dO pairs bs).length = pairs.length := by
  unfold calculate_batch_ifd_scores
  simp

theorem batch_score_pairs_getElem? (configured : Bool)
    (cUps dUps : ℕ → Except String String) (pairs : List Pair) (i : ℕ) :
    (batch_score_pairs_ifd configured cUps dUps pairs)[i]?
      = pairs[i]?.map fun p =>
          let r := calculate_ifd_score configured (cUps i) (dUps i) p
          ({ question := p.question, answer := p.answer, source := p.source,
             ifd_score := r.ifd_score, conditioned_score := r.conditioned_score,
             direct_score := r.direct_score, tier := r.tier,
             value_category := r.value_category,
             recommendation := r.recommendation } : ScoredPair) := by
  simp only [batch_score_pairs_ifd]
  rw [getElem?_enum_map]

theorem batch_score_pairs_length (configured : Bool)
    (cUps dUps : ℕ → Except String String) (pairs : List Pair) :
    (batch_score_pairs_ifd configured cUps dUps pairs).length = pairs.length := by
  unfold batch_score_pairs_ifd
  simp

theorem valueOf_consistent (q : ℚ) : catRecConsistent (valueOf q).1 (valueOf q).2 := by
  unfold valueOf catRecConsistent
  split
  · refine ⟨fun _ => rfl, fun h => ?_, fun h => ?_⟩ <;> cases h
  · split
    · refine ⟨fun h => ?_, fun _ => rfl, fun h => ?_⟩ <;> cases h
    · refine ⟨fun h => ?_, fun h => ?_, fun _ => rfl⟩ <;> cases h

theorem batchIfdRaw_nonneg {c : ℚ} (hc : 0 ≤ c) (d : ℚ) : 0 ≤ batchIfdRaw c d := by
  unfold batchIfdRaw
  split
  · exact clamp01_nonneg _
  · exact hc

theorem batchIfdRaw_le_one {c : ℚ} (hc : c ≤ 1) (d : ℚ) : batchIfdRaw c d ≤ 1 := by
  unfold batchIfdRaw
  split
  · exact clamp01_le_one _
  · exact hc

theorem singleIfdRaw_nonneg {c : ℚ} (hc : 0 ≤ c) (d : ℚ) : 0 ≤ singleIfdRaw c d := by
  unfold singleIfdRaw
  split
  · exact clamp01_nonneg _
  · exact hc

theorem singleIfdRaw_le_one {c : ℚ} (hc : c ≤ 1) (d : ℚ) : singleIfdRaw c d ≤ 1 := by
  unfold singleIfdRaw
  split
  · exact clamp01_le_one _
  · exact hc

theorem digitVals_le_nine (s : String) : ∀ d ∈ digitVals s, d ≤ 9 := by
  intro d hd
  unfold digitVals at hd
  obtain ⟨c, hc, rfl⟩ := List.mem_map.mp hd
  have h := (List.mem_filter.mp hc).2
  simp [Char.isDigit, UInt32.le_def, BitVec.le_def] at h
  simp [Char.toNat, UInt32.toNat]
  omega

theorem firstDigit_le_nine (s : String) : firstDigit s ≤ 9 := by
  unfold firstDigit
  cases h : digitVals s with
  | nil => exact by norm_num
  | cons d t =>
    have : d ∈ digitVals s := by rw [h]; exact List.mem_cons_self d t
    exact digitVals_le_nine s d this

theorem estimate_nonneg (answer : String) : 0 ≤ estimate_ifd_heuristic answer := by
  simp only [estimate_ifd_heuristic]
  split
  · exact le_rfl
  · exact clamp01_nonneg _

theorem estimate_le_one (answer : String) : estimate_ifd_heuristic answer ≤ 1 := by
  simp only [estimate_ifd_heuristic]
  split
  · exact by norm_num
  · exact clamp01_le_one _

theorem singleSuccess_range (condResp dirResp : String) :
    0 ≤ (singleSuccess condResp dirResp).ifd_score
      ∧ (singleSuccess condResp dirResp).ifd_score ≤ 1 := by
  have hc0 : (0 : ℚ) ≤ (firstDigit condResp : ℚ) / 10 := by positivity
  have hc1 : (firstDigit condResp : ℚ) / 10 ≤ 1 := by
    have h9 : (firstDigit condResp : ℚ) ≤ 9 := by
      exact_mod_cast firstDigit_le_nine condResp
    linarith
  exact ⟨round3_nonneg (singleIfdRaw_nonneg hc0 _),
    round3_le_one (singleIfdRaw_le_one hc1 _)⟩

theorem calculate_ifd_score_range (configured : Bool) (condUp dirUp : Except String String)
    (pair : Pair) :
    0 ≤ (calculate_ifd_score configured condUp dirUp pair).ifd_score
      ∧ (calculate_ifd_score configured condUp dirUp pair).ifd_score ≤ 1 := by
  unfold calculate_ifd_score
  split
  · exact ⟨by norm_num [invalidPairResult], by norm_num [invalidPairResult]⟩
  · split
    · exact ⟨round3_nonneg (estimate_nonneg _), round3_le_one (estimate_le_one _)⟩
    · split
      · exact ⟨round3_nonneg (estimate_nonneg _), round3_le_one (estimate_le_one _)⟩
      · exact singleSuccess_range _ _

theorem finalizePair_ifd_score (pair : Pair) (c d : ℚ) :
    (finalizePair pair c d).ifd_score = round3 (batchIfdRaw c d) := rfl

theorem finalizePair_conditioned (pair : Pair) (c d : ℚ) :
    (finalizePair pair c d).conditioned_score = round3 c := rfl

theorem finalizePair_direct (pair : Pair) (c d : ℚ) :
    (finalizePair pair c d).direct_score = round3 d := rfl

theorem finalizePair_tier (pair : Pair) (c d : ℚ) :
    (finalizePair pair c d).tier = tierOf (batchIfdRaw c d) := rfl

theorem finalizePair_value (pair : Pair) (c d : ℚ) :
    (finalizePair pair c d).value_category = (valueOf (batchIfdRaw c d)).1 := rfl

theorem finalizePair_recommendation (pair : Pair) (c d : ℚ) :
    (finalizePair pair c d).recommendation = (valueOf (batchIfdRaw c d)).2 := rfl

theorem singleSuccess_ifd_score (condResp dirResp : String) :
    (singleSuccess condResp dirResp).ifd_score
      = round3 (singleIfdRaw ((firstDigit condResp : ℚ) / 10) ((firstDigit dirResp : ℚ) / 10)) :=
  rfl

theorem singleSuccess_tier (condResp dirResp : String) :
    (singleSuccess condResp dirResp).tier
      = tierOf (singleIfdRaw ((firstDigit condResp : ℚ) / 10) ((firstDigit dirResp : ℚ) / 10)) :=
  rfl

theorem singleSuccess_value (condResp dirResp : String) :
    (singleSuccess condResp dirResp).value_category
      = (valueOf (singleIfdRaw ((firstDigit condResp : ℚ) / 10)
          ((firstDigit dirResp : ℚ) / 10))).1 := rfl

theorem singleSuccess_recommendation (condResp dirResp : String) :
    (singleSuccess condResp dirResp).recommendation
      = (valueOf (singleIfdRaw ((firstDigit condResp : ℚ) / 10)
          ((firstDigit dirResp : ℚ) / 10))).2 := rfl

theorem batchIfdRaw_of_pos {d : ℚ} (hd : 0 < d) (c : ℚ) :
    batchIfdRaw c d = clamp01 ((c / d) / 3) := if_pos hd

theorem singleIfdRaw_of_pos {d : ℚ} (hd : 0 < d) (c : ℚ) :
    singleIfdRaw c d = clamp01 ((c / d - 1/2) / (3/2)) := if_pos hd

theorem singleIfdRaw_of_nonpos {d : ℚ} (hd : ¬ 0 < d) (c : ℚ) :
    singleIfdRaw c d = c := if_neg hd

theorem clamp01_of_mem {q : ℚ} (h0 : 0 ≤ q) (h1 : q ≤ 1) : clamp01 q = q := by
  unfold clamp01
  rw [max_eq_right h0, min_eq_right h1]

theorem tierOf_of_lt {q : ℚ} (h : q < 33/100) : tierOf q = Tier.easy := if_pos h

theorem tierOf_of_mid {q : ℚ} (h1 : 33/100 ≤ q) (h2 : q < 67/100) :
    tierOf q = Tier.medium := by
  unfold tierOf
  rw [if_neg (not_lt.mpr h1), if_pos h2]

theorem tierOf_of_ge {q : ℚ} (h : 67/100 ≤ q) : tierOf q = Tier.hard := by
  unfold tierOf
  rw [if_neg (not_lt.mpr (le_trans (by norm_num) h)), if_neg (not_lt.mpr h)]

theorem valueOf_of_high {q : ℚ} (h : 7/10 < q) :
    valueOf q = (Category.high, "High value - prioritize for training") := if_pos h

theorem valueOf_of_mid {q : ℚ} (h1 : q ≤ 7/10) (h2 : 4/10 < q) :
    valueOf q = (Category.medium, "Medium value - useful data") := by
  unfold valueOf
  rw [if_neg (not_lt.mpr h1), if_pos h2]

theorem valueOf_of_low {q : ℚ} (h : q ≤ 4/10) :
    valueOf q = (Category.low, "Low value - less useful for training") := by
  unfold valueOf
  rw [if_neg (not_lt.mpr (h.trans (by norm_num))), if_neg (not_lt.mpr h)]

theorem phase_scores_unconfigured (oracle : ℕ → Except String String)
    (idx : ℕ) (batches : List (List Pair)) :
    ∀ x ∈ phase_scores false oracle idx batches, x = 1/2 := by
  induction batches generalizing idx with
  | nil => intro x hx; cases hx
  | cons b rest ih =>
    intro x hx
    unfold phase_scores at hx
    rcases List.mem_append.mp hx with h | h
    · exact List.eq_of_mem_replicate h
    · exact ih (idx + 1) x h

theorem getD_const_half {L : List ℚ} (h : ∀ x ∈ L, x = 1/2) (i : ℕ) :
    L.getD i (1/2) = 1/2 := by
  rcases lt_or_le i L.length with hi | hi
  · rw [List.getD_eq_getElem L _ hi]
    exact h _ (List.getElem_mem hi)
  · exact List.getD_eq_default L _ hi

theorem finalizePair_ifd_range {c : ℚ} (hc0 : 0 ≤ c) (hc1 : c ≤ 1) (pair : Pair) (d : ℚ) :
    0 ≤ (finalizePair pair c d).ifd_score ∧ (finalizePair pair c d).ifd_score ≤ 1 :=
  ⟨round3_nonneg (batchIfdRaw_nonneg hc0 d), round3_le_one (batchIfdRaw_le_one hc1 d)⟩

theorem estimate_formula (answer : String) :
    estimate_ifd_heuristic answer
      = clamp01 ((((wordsOf answer).dedup.length : ℚ) / ((wordsOf answer).length : ℚ)) * (3/10)
          + ((techCount answer : ℚ) / ((wordsOf answer).length : ℚ)) * (3/10)
          + (min (((wordsOf answer).length : ℚ) / 200) 1) * (4/10)) := by
  simp only [estimate_ifd_heuristic]
  split
  · next h =>
    rw [h]
    norm_num [clamp01]
  · next h =>
    have hlen : 1 ≤ (wordsOf answer).length := by
      rcases Nat.eq_zero_or_pos (wordsOf answer).length with h0 | h0
      · exact absurd (List.length_eq_zero.mp h0) h
      · exact h0
    rw [Nat.max_eq_left hlen]

theorem calculate_ifd_score_success {pair : Pair} (hq : pair.question ≠ "")
    (ha : pair.answer ≠ "") (condResp dirResp : String) :
    calculate_ifd_score true (Except.ok condResp) (Except.ok dirResp) pair
      = singleSuccess condResp dirResp := by
  unfold calculate_ifd_score
  rw [if_neg (by push_neg; exact ⟨hq, ha⟩)]
  rfl

theorem calculate_ifd_score_condErr {pair : Pair} (hq : pair.question ≠ "")
    (ha : pair.answer ≠ "") {configured : Bool} {cU : Except String String} {e : String}
    (hc : chat configured cU = Except.error e) (dU : Except String String) :
    calculate_ifd_score configured cU dU pair = heuristicFallback pair.answer e := by
  unfold calculate_ifd_score
  rw [if_neg (by push_neg; exact ⟨hq, ha⟩), hc]

theorem calculate_ifd_score_dirErr {pair : Pair} (hq : pair.question ≠ "")
    (ha : pair.answer ≠ "") {configured : Bool} {cU dU : Except String String}
    {s e : String} (hc : chat configured cU = Except.ok s)
    (hd : chat configured dU = Except.error e) :
    calculate_ifd_score configured cU dU pair = heuristicFallback pair.answer e := by
  unfold calculate_ifd_score
  rw [if_neg (by push_neg; exact ⟨hq, ha⟩), hc, hd]

/-! ### Claim theorems -/

/-- C7: For every input sequence and every scorer behaviour, both scoring
operations return exactly one output per input pair, `output[i]` keeps the
question, answer and source of `input[i]`, and every produced `ifd_score`
lies in [0, 1]. -/
theorem scoring_output_invariants (configured : Bool)
    (cO dO cUps dUps : ℕ → Except String String) (pairs : List Pair) (bs i : ℕ) :
    (calculate_batch_ifd_scores configured cO dO pairs bs).length = pairs.length
  ∧ ((calculate_batch_ifd_scores configured cO dO pairs bs)[i]?.map fun sp =>
        (sp.question, sp.answer, sp.source))
      = pairs[i]?.map (fun p => (p.question, p.answer, p.source))
  ∧ (∀ sp ∈ calculate_batch_ifd_scores configured cO dO pairs bs,
      0 ≤ sp.ifd_score ∧ sp.ifd_score ≤ 1)
  ∧ (batch_score_pairs_ifd configured cUps dUps pairs).length = pairs.length
  ∧ ((batch_score_pairs_ifd configured cUps dUps pairs)[i]?.map fun sp =>
        (sp.question, sp.answer, sp.source))
      = pairs[i]?.map (fun p => (p.question, p.answer, p.source))
  ∧ (∀ sp ∈ batch_score_pairs_ifd configured cUps dUps pairs,
      0 ≤ sp.ifd_score ∧ sp.ifd_score ≤ 1) := by
  refine ⟨calculate_batch_length configured cO dO pairs bs, ?_, ?_,
    batch_score_pairs_length configured cUps dUps pairs, ?_, ?_⟩
  · rw [calculate_batch_getElem?]
    cases pairs[i]? <;> rfl
  · intro sp hsp
    simp only [calculate_batch_ifd_scores, List.mem_map] at hsp
    obtain ⟨p, _, rfl⟩ := hsp
    have hc := getD_scoreSet (phaseScoresOf_scoreSet configured cO pairs bs) p.1
    exact finalizePair_ifd_range (scoreSet_nonneg hc) (scoreSet_le_one hc) _ _
  · rw [batch_score_pairs_getElem?]
    cases pairs[i]? <;> rfl
  · intro sp hsp
    simp only [batch_score_pairs_ifd, List.mem_map] at hsp
    obtain ⟨p, _, rfl⟩ := hsp
    exact calculate_ifd_score_range configured (cUps p.1) (dUps p.1) p.2

/-- C1: In batch scoring, the final score of the pair at index `i`, whose stored
conditioned score is `c` and direct score is `d`, is `clamp(0,1,(c/d)/3.0)` when
`d > 0` and `c` otherwise (rounded to three decimals for output); and on the
two-pair scenario where the scorer returns "3,8" in the conditioned phase and
"5,5" in the direct phase, the outputs are ifd scores [0.2, 0.533] with tiers
[easy, medium]. -/
theorem batch_ifd_formula_and_example (configured : Bool)
    (cO dO : ℕ → Except String String) (pairs : List Pair) (bs i : ℕ) :
    ((calculate_batch_ifd_scores configured cO dO pairs bs)[i]?.map fun sp => sp.ifd_score)
      = pairs[i]?.map (fun _ =>
          round3 (if 0 < (phaseScoresOf configured dO pairs bs).getD i (1/2) then
              clamp01 ((((phaseScoresOf configured cO pairs bs).getD i (1/2))
                / ((phaseScoresOf configured dO pairs bs).getD i (1/2))) / 3)
            else (phaseScoresOf configured cO pairs bs).getD i (1/2)))
  ∧ ((calculate_batch_ifd_scores true (fun _ => Except.ok "3,8") (fun _ => Except.ok "5,5")
        [⟨"Q1", "A1", ""⟩, ⟨"Q2", "A2", ""⟩] 10).map fun sp => sp.ifd_score)
      = [1/5, 533/1000]
  ∧ ((calculate_batch_ifd_scores true (fun _ => Except.ok "3,8") (fun _ => Except.ok "5,5")
        [⟨"Q1", "A1", ""⟩, ⟨"Q2", "A2", ""⟩] 10).map fun sp => sp.tier)
      = [Tier.easy, Tier.medium] := by
  have hb : calculate_batch_ifd_scores true (fun _ => Except.ok "3,8")
      (fun _ => Except.ok "5,5") [⟨"Q1", "A1", ""⟩, ⟨"Q2", "A2", ""⟩] 10
      = [finalizePair ⟨"Q1", "A1", ""⟩ (((3:ℕ):ℚ)/10) (((5:ℕ):ℚ)/10),
         finalizePair ⟨"Q2", "A2", ""⟩ (((8:ℕ):ℚ)/10) (((5:ℕ):ℚ)/10)] := rfl
  have r1 : batchIfdRaw (((3:ℕ):ℚ)/10) (((5:ℕ):ℚ)/10) = 1/5 := by
    rw [batchIfdRaw_of_pos (by norm_num), clamp01_of_mem (by norm_num) (by norm_num)]
    norm_num
  have r2 : batchIfdRaw (((8:ℕ):ℚ)/10) (((5:ℕ):ℚ)/10) = 8/15 := by
    rw [batchIfdRaw_of_pos (by norm_num), clamp01_of_mem (by norm_num) (by norm_num)]
    norm_num
  refine ⟨?_, ?_, ?_⟩
  · rw [calculate_batch_getElem?]
    cases pairs[i]? <;> rfl
  · rw [hb]
    simp only [List.map_cons, List.map_nil, finalizePair_ifd_score, r1, r2]
    norm_num [round3, round_eq]
  · rw [hb]
    simp only [List.map_cons, List.map_nil, finalizePair_tier, r1, r2,
      tierOf_of_lt (show (1:ℚ)/5 < 33/100 by norm_num),
      tierOf_of_mid (show (33:ℚ)/100 ≤ 8/15 by norm_num) (show (8:ℚ)/15 < 67/100 by norm_num)]

/-- C10: Every stored batch conditioned/direct score lies in
{0.1, 0.2, ..., 1.0}, hence is strictly positive; consequently the `direct > 0`
guard always holds in the finalize phase and the score of the pair at index `i`
is always computed by the division branch (the degenerate `ifd = conditioned`
branch is unreachable). -/
theorem batch_scores_positive (configured : Bool)
    (cO dO : ℕ → Except String String) (pairs : List Pair) (bs i : ℕ)
    (hi : i < pairs.length) :
    scoreSet ((phaseScoresOf configured cO pairs bs).getD i (1/2))
  ∧ scoreSet ((phaseScoresOf configured dO pairs bs).getD i (1/2))
  ∧ 0 < (phaseScoresOf configured dO pairs bs).getD i (1/2)
  ∧ ((calculate_batch_ifd_scores configured cO dO pairs bs)[i]?.map fun sp =>
        (sp.conditioned_score, sp.direct_score))
      = some ((phaseScoresOf configured cO pairs bs).getD i (1/2),
          (phaseScoresOf configured dO pairs bs).getD i (1/2))
  ∧ ((calculate_batch_ifd_scores configured cO dO pairs bs)[i]?.map fun sp => sp.ifd_score)
      = some (round3 (clamp01 ((((phaseScoresOf configured cO pairs bs).getD i (1/2))
          / ((phaseScoresOf configured dO pairs bs).getD i (1/2))) / 3))) := by
  have hc := getD_scoreSet (phaseScoresOf_scoreSet configured cO pairs bs) i
  have hd := getD_scoreSet (phaseScoresOf_scoreSet configured dO pairs bs) i
  have hp : pairs[i]? = some pairs[i] := List.getElem?_eq_getElem hi
  refine ⟨hc, hd, scoreSet_pos hd, ?_, ?_⟩
  · rw [calculate_batch_getElem?, hp]
    simp only [Option.map_some', finalizePair_conditioned, finalizePair_direct,
      round3_scoreSet hc, round3_scoreSet hd]
  · rw [calculate_batch_getElem?, hp]
    simp only [Option.map_some', finalizePair_ifd_score,
      batchIfdRaw_of_pos (scoreSet_pos hd)]

/-- C10 witness: the conclusion holds at a concrete one-pair input whose batch
call raises, with `i = 0 < 1`. -/
theorem batch_scores_positive_witness :
    0 < ([exPair] : List Pair).length
  ∧ (scoreSet ((phaseScoresOf true errOracle [exPair] 10).getD 0 (1/2))
  ∧ scoreSet ((phaseScoresOf true errOracle [exPair] 10).getD 0 (1/2))
  ∧ 0 < (phaseScoresOf true errOracle [exPair] 10).getD 0 (1/2)
  ∧ ((calculate_batch_ifd_scores true errOracle errOracle [exPair] 10)[0]?.map fun sp =>
        (sp.conditioned_score, sp.direct_score))
      = some ((phaseScoresOf true errOracle [exPair] 10).getD 0 (1/2),
          (phaseScoresOf true errOracle [exPair] 10).getD 0 (1/2))
  ∧ ((calculate_batch_ifd_scores true errOracle errOracle [exPair] 10)[0]?.map fun sp =>
        sp.ifd_score)
      = some (round3 (clamp01 ((((phaseScoresOf true errOracle [exPair] 10).getD 0 (1/2))
          / ((phaseScoresOf true errOracle [exPair] 10).getD 0 (1/2))) / 3)))) :=
  ⟨by norm_num, batch_scores_positive true errOracle errOracle [exPair] 10 0 (by norm_num)⟩

/-- C5: Batch response parsing is a total function: it always yields exactly
one score per pair of the batch (missing scores padded with 0.5, excess scores
discarded), every parsed score is an in-range digit divided by 10 or the
neutral 0.5, and the response "abc,11,-" for a 3-pair batch yields 0.5 for all
three pairs. -/
theorem parse_scores_total_and_example (response : String) (n : ℕ) :
    (parseScores response n).length = n
  ∧ (∀ x ∈ parseScores response n, scoreSet x)
  ∧ parseScores "abc,11,-" 3 = [1/2, 1/2, 1/2] :=
  ⟨parseScores_length response n, parseScores_scoreSet response n, rfl⟩

/-- C5 witness: the parse of "7" for a 1-pair batch is one score, 0.7, which is
in the quantized score set. -/
theorem parse_scores_total_witness :
    (parseScores "7" 1).length = 1 ∧ scoreSet (((7:ℕ):ℚ)/10) :=
  ⟨(parse_scores_total_and_example "7" 1).1,
    (parse_scores_total_and_example "7" 1).2.1 (((7:ℕ):ℚ)/10)
      (show _ ∈ [((7:ℕ):ℚ)/10] from List.mem_singleton.mpr rfl)⟩

/-- C2 counterexample: with no credentials configured, the batch run still
completes and produces scored output (every pair gets the neutral 0.5 phase
scores), and the single-pair path recovers through the heuristic fallback whose
recommendation carries the configuration-error message — contradicting the
claim that the run aborts before any scoring work and produces no output. -/
theorem unconfigured_no_abort_counterexample :
    (calculate_batch_ifd_scores false (fun _ => Except.ok "7") (fun _ => Except.ok "7")
        [exPair] 10).length = 1
  ∧ ((calculate_batch_ifd_scores false (fun _ => Except.ok "7") (fun _ => Except.ok "7")
        [exPair] 10).map fun sp => (sp.conditioned_score, sp.direct_score))
      = [((1:ℚ)/2, (1:ℚ)/2)]
  ∧ (calculate_ifd_score false (Except.ok "7") (Except.ok "7") exPair).recommendation
      = "Heuristic scoring: OpenAI client not initialized. Check API credentials." := by
  refine ⟨rfl, ?_, rfl⟩
  have hb : calculate_batch_ifd_scores false (fun _ => Except.ok "7")
      (fun _ => Except.ok "7") [exPair] 10 = [finalizePair exPair (1/2) (1/2)] := rfl
  rw [hb]
  simp only [List.map_cons, List.map_nil, finalizePair_conditioned, finalizePair_direct,
    round3_scoreSet scoreSet_half]

/-- C2 (amended): when no credentials are configured, the scorer client raises
the configuration error before any upstream call is attempted, but neither
scoring path aborts: the batch path completes with a full-length output whose
stored conditioned/direct scores are all the neutral 0.5, and the single-pair
path recovers through the heuristic fallback carrying the configuration-error
message. -/
theorem unconfigured_degrades (up : Except String String)
    (cO dO : ℕ → Except String String) (cU dU : Except String String)
    (pairs : List Pair) (bs i : ℕ) (pair : Pair)
    (hq : pair.question ≠ "") (ha : pair.answer ≠ "") :
    chat false up = Except.error "OpenAI client not initialized. Check API credentials."
  ∧ (calculate_batch_ifd_scores false cO dO pairs bs).length = pairs.length
  ∧ ((calculate_batch_ifd_scores false cO dO pairs bs)[i]?.map fun sp =>
        (sp.conditioned_score, sp.direct_score))
      = pairs[i]?.map (fun _ => ((1:ℚ)/2, (1:ℚ)/2))
  ∧ calculate_ifd_score false cU dU pair
      = heuristicFallback pair.answer
          "OpenAI client not initialized. Check API credentials." := by
  have hhalf : ∀ (o : ℕ → Except String String),
      (phaseScoresOf false o pairs bs).getD i (1/2) = 1/2 := fun o =>
    getD_const_half (phase_scores_unconfigured o 0 (toBatches bs pairs)) i
  refine ⟨rfl, calculate_batch_length false cO dO pairs bs, ?_, ?_⟩
  · rw [calculate_batch_getElem?]
    cases pairs[i]? with
    | none => rfl
    | some p =>
      simp only [Option.map_some', finalizePair_conditioned, finalizePair_direct,
        hhalf, round3_scoreSet scoreSet_half]
  · exact calculate_ifd_score_condErr hq ha
      (rfl : chat false cU
        = Except.error "OpenAI client not initialized. Check API credentials.") dU

/-- C2 witness: the amended statement at a concrete one-pair input. -/
theorem unconfigured_degrades_witness :
    (exPair.question ≠ "" ∧ exPair.answer ≠ "")
  ∧ (chat false (Except.ok "x")
        = Except.error "OpenAI client not initialized. Check API credentials."
  ∧ (calculate_batch_ifd_scores false errOracle errOracle [exPair] 10).length
        = ([exPair] : List Pair).length
  ∧ ((calculate_batch_ifd_scores false errOracle errOracle [exPair] 10)[0]?.map fun sp =>
        (sp.conditioned_score, sp.direct_score))
      = ([exPair] : List Pair)[0]?.map (fun _ => ((1:ℚ)/2, (1:ℚ)/2))
  ∧ calculate_ifd_score false (Except.ok "7") (Except.ok "7") exPair
      = heuristicFallback exPair.answer
          "OpenAI client not initialized. Check API credentials.") :=
  ⟨⟨by decide, by decide⟩,
    unconfigured_degrades (Except.ok "x") errOracle errOracle (Except.ok "7")
      (Except.ok "7") [exPair] 10 0 exPair (by decide) (by decide)⟩

/-- C3 counterexample: the batch path performs no empty-pair validation — a
pair with empty question and answer is scored like any other; with a failing
scorer it yields ifd 0.333 (not 0.0) and the ordinary low-value recommendation
(not the fixed "invalid pair" one). -/
theorem batch_empty_pair_counterexample :
    ((calculate_batch_ifd_scores true errOracle errOracle [emptyPair] 10).map fun sp =>
        (sp.ifd_score, sp.tier, sp.value_category, sp.recommendation))
      = [((333:ℚ)/1000, Tier.medium, Category.low, "Low value - less useful for training")]
  ∧ ((333:ℚ)/1000) ≠ 0 := by
  constructor
  · have hb : calculate_batch_ifd_scores true errOracle errOracle [emptyPair] 10
        = [finalizePair emptyPair (1/2) (1/2)] := rfl
    have r : batchIfdRaw ((1:ℚ)/2) ((1:ℚ)/2) = 1/3 := by
      rw [batchIfdRaw_of_pos (by norm_num), clamp01_of_mem (by norm_num) (by norm_num)]
      norm_num
    rw [hb]
    simp only [List.map_cons, List.map_nil, finalizePair_ifd_score, finalizePair_tier,
      finalizePair_value, finalizePair_recommendation, r,
      tierOf_of_mid (show (33:ℚ)/100 ≤ 1/3 by norm_num) (show (1:ℚ)/3 < 67/100 by norm_num),
      valueOf_of_low (show (1:ℚ)/3 ≤ 4/10 by norm_num)]
    norm_num [round3, round_eq]
  · norm_num

/-- C3 (amended): a pair with empty question or empty answer short-circuits to
ifd 0.0 / tier medium / category low / the fixed invalid-pair recommendation in
the single-pair path (`calculate_ifd_score`, hence also its one-by-one loop
`batch_score_pairs_ifd`); the batch path performs no such validation. -/
theorem empty_pair_sentinel (configured : Bool) (cU dU : Except String String)
    (cUps dUps : ℕ → Except String String) (pairs : List Pair) (i : ℕ) (pair : Pair)
    (h : pair.question = "" ∨ pair.answer = "") :
    calculate_ifd_score configured cU dU pair = invalidPairResult
  ∧ invalidPairResult.ifd_score = 0
  ∧ invalidPairResult.tier = Tier.medium
  ∧ invalidPairResult.value_category = Category.low
  ∧ invalidPairResult.recommendation = "Invalid pair - missing question or answer"
  ∧ (pairs[i]? = some pair →
      ((batch_score_pairs_ifd configured cUps dUps pairs)[i]?.map fun sp =>
          (sp.ifd_score, sp.tier, sp.value_category, sp.recommendation))
        = some (0, Tier.medium, Category.low,
            "Invalid pair - missing question or answer")) := by
  have h2 : ∀ cU2 dU2 : Except String String,
      calculate_ifd_score configured cU2 dU2 pair = invalidPairResult := by
    intro cU2 dU2
    unfold calculate_ifd_score
    rw [if_pos h]
  refine ⟨h2 cU dU, rfl, rfl, rfl, rfl, fun hp => ?_⟩
  rw [batch_score_pairs_getElem?, hp]
  simp only [Option.map_some', h2]
  rfl

/-- C3 witness: the amended statement at the concrete empty pair. -/
theorem empty_pair_sentinel_witness :
    (emptyPair.question = "" ∨ emptyPair.answer = "")
  ∧ calculate_ifd_score true (Except.ok "5") (Except.ok "5") emptyPair = invalidPairResult
  ∧ (((batch_score_pairs_ifd true errOracle errOracle [emptyPair])[0]?.map fun sp =>
        (sp.ifd_score, sp.tier, sp.value_category, sp.recommendation))
      = some (0, Tier.medium, Category.low,
          "Invalid pair - missing question or answer")) :=
  ⟨Or.inl rfl,
    (empty_pair_sentinel true (Except.ok "5") (Except.ok "5") errOracle errOracle
      [emptyPair] 0 emptyPair (Or.inl rfl)).1,
    (empty_pair_sentinel true (Except.ok "5") (Except.ok "5") errOracle errOracle
      [emptyPair] 0 emptyPair (Or.inl rfl)).2.2.2.2.2 rfl⟩

/-- C4 counterexample: the heuristic-fallback output of the single-pair path
has value category medium while its recommendation is the error message, not
"Medium value - useful data" — so category and recommendation are not jointly
consistent on every output. -/
theorem category_recommendation_counterexample :
    (calculate_ifd_score true (Except.error "boom") (Except.ok "5") exPair).value_category
      = Category.medium
  ∧ (calculate_ifd_score true (Except.error "boom") (Except.ok "5") exPair).recommendation
      ≠ "Medium value - useful data" :=
  ⟨rfl, by decide⟩

/-- C4 (amended): value category and recommendation are jointly consistent for
every record produced by the batch path and for every single-pair output of a
valid pair whose two API calls succeed; the invalid-pair sentinel and the
heuristic fallback instead carry a fixed invalid-pair text (category low) and
the error message (category medium), respectively. -/
theorem category_recommendation_amended (configured : Bool)
    (cO dO : ℕ → Except String String) (pairs : List Pair) (bs : ℕ)
    (condResp dirResp : String) (pair : Pair)
    (hq : pair.question ≠ "") (ha : pair.answer ≠ "") :
    (∀ sp ∈ calculate_batch_ifd_scores configured cO dO pairs bs,
        catRecConsistent sp.value_category sp.recommendation)
  ∧ catRecConsistent
      (calculate_ifd_score true (Except.ok condResp) (Except.ok dirResp) pair).value_category
      (calculate_ifd_score true (Except.ok condResp) (Except.ok dirResp) pair).recommendation := by
  constructor
  · intro sp hsp
    simp only [calculate_batch_ifd_scores, List.mem_map] at hsp
    obtain ⟨p, _, rfl⟩ := hsp
    rw [finalizePair_value, finalizePair_recommendation]
    exact valueOf_consistent _
  · rw [calculate_ifd_score_success hq ha, singleSuccess_value, singleSuccess_recommendation]
    exact valueOf_consistent _

/-- C4 witness: the amended statement at a concrete valid pair and response. -/
theorem category_recommendation_amended_witness :
    (exPair.question ≠ "" ∧ exPair.answer ≠ "")
  ∧ ((∀ sp ∈ calculate_batch_ifd_scores true errOracle errOracle [exPair] 10,
        catRecConsistent sp.value_category sp.recommendation)
  ∧ catRecConsistent
      (calculate_ifd_score true (Except.ok "5") (Except.ok "5") exPair).value_category
      (calculate_ifd_score true (Except.ok "5") (Except.ok "5") exPair).recommendation) :=
  ⟨⟨by decide, by decide⟩,
    category_recommendation_amended true errOracle errOracle [exPair] 10 "5" "5" exPair
      (by decide) (by decide)⟩

/-- C6 counterexample: when the direct response parses to digit 0 the code
returns the conditioned score unchanged (0.9), not the claimed shift-and-scale
`clamp(0,1,(r-0.5)/1.5)` (which would give 0.267). -/
theorem single_zero_direct_counterexample :
    (calculate_ifd_score true (Except.ok "9") (Except.ok "0") exPair).ifd_score = 9/10
  ∧ round3 (clamp01 (((9:ℚ)/10 - 1/2) / (3/2))) = 267/1000
  ∧ ((9:ℚ)/10) ≠ 267/1000 := by
  refine ⟨?_, ?_, by norm_num⟩
  · have h9 : firstDigit "9" = 9 := by decide
    have h0 : firstDigit "0" = 0 := by decide
    rw [calculate_ifd_score_success (by decide) (by decide) "9" "0", singleSuccess_ifd_score,
      h9, h0, singleIfdRaw_of_nonpos (by norm_num)]
    norm_num [round3, round_eq]
  · rw [clamp01_of_mem (by norm_num) (by norm_num)]
    norm_num [round3, round_eq]

/-- C6 (amended): in single-pair scoring of a non-empty pair with two
successful calls, each response is parsed to its first digit character
(default 5) and normalized as digit/10; when `direct_score > 0` the result is
`clamp(0,1,(conditioned/direct - 0.5)/1.5)`, but when `direct_score = 0` the
result is the conditioned score unchanged — the shift-and-scale is applied
only in the positive-direct branch (outputs rounded to three decimals). -/
theorem single_ifd_formula (condResp dirResp : String) (pair : Pair)
    (hq : pair.question ≠ "") (ha : pair.answer ≠ "") :
    ((digitVals condResp = [] → firstDigit condResp = 5)
  ∧ (∀ d l, digitVals condResp = d :: l → firstDigit condResp = d))
  ∧ (calculate_ifd_score true (Except.ok condResp) (Except.ok dirResp) pair).conditioned_score
      = round3 ((firstDigit condResp : ℚ) / 10)
  ∧ (calculate_ifd_score true (Except.ok condResp) (Except.ok dirResp) pair).direct_score
      = round3 ((firstDigit dirResp : ℚ) / 10)
  ∧ (calculate_ifd_score true (Except.ok condResp) (Except.ok dirResp) pair).ifd_score
      = round3 (if 0 < (firstDigit dirResp : ℚ) / 10 then
          clamp01 (((firstDigit condResp : ℚ) / 10 / ((firstDigit dirResp : ℚ) / 10) - 1/2)
            / (3/2))
        else (firstDigit condResp : ℚ) / 10) := by
  refine ⟨⟨fun h => ?_, fun d l h => ?_⟩, ?_, ?_, ?_⟩
  · unfold firstDigit
    rw [h]
    rfl
  · unfold firstDigit
    rw [h]
    rfl
  · rw [calculate_ifd_score_success hq ha]
    rfl
  · rw [calculate_ifd_score_success hq ha]
    rfl
  · rw [calculate_ifd_score_success hq ha]
    rfl

/-- C6 witness: the amended statement at a concrete pair and responses. -/
theorem single_ifd_formula_witness :
    (exPair.question ≠ "" ∧ exPair.answer ≠ "")
  ∧ (((digitVals "9" = [] → firstDigit "9" = 5)
  ∧ (∀ d l, digitVals "9" = d :: l → firstDigit "9" = d))
  ∧ (calculate_ifd_score true (Except.ok "9") (Except.ok "4") exPair).conditioned_score
      = round3 ((firstDigit "9" : ℚ) / 10)
  ∧ (calculate_ifd_score true (Except.ok "9") (Except.ok "4") exPair).direct_score
      = round3 ((firstDigit "4" : ℚ) / 10)
  ∧ (calculate_ifd_score true (Except.ok "9") (Except.ok "4") exPair).ifd_score
      = round3 (if 0 < (firstDigit "4" : ℚ) / 10 then
          clamp01 (((firstDigit "9" : ℚ) / 10 / ((firstDigit "4" : ℚ) / 10) - 1/2)
            / (3/2))
        else (firstDigit "9" : ℚ) / 10)) :=
  ⟨⟨by decide, by decide⟩,
    single_ifd_formula "9" "4" exPair (by decide) (by decide)⟩

/-- C8 counterexample: the invalid-pair sentinel output has ifd 0.0 (below the
0.33 threshold) yet tier medium, so the tier of an output is not the claimed
function of its ifd score on every output. -/
theorem tier_function_counterexample :
    (calculate_ifd_score true (Except.ok "5") (Except.ok "5") emptyPair).ifd_score = 0
  ∧ ((0:ℚ) < 33/100)
  ∧ (calculate_ifd_score true (Except.ok "5") (Except.ok "5") emptyPair).tier = Tier.medium
  ∧ Tier.medium ≠ Tier.easy :=
  ⟨rfl, by norm_num, rfl, by decide⟩

/-- C8 (amended): the shared tier function maps scores below 0.33 to easy,
scores in [0.33, 0.67) to medium (in particular 0.33 itself), and scores from
0.67 up to hard; whenever a score is actually computed — always in the batch
path, and in the single-pair path when both API calls succeed — the stored
tier is this function applied to the (pre-rounding) ifd value; the sentinel
and fallback paths instead fix tier to medium regardless of the score. -/
theorem tier_thresholds_amended (x : ℚ) (configured : Bool)
    (cO dO : ℕ → Except String String) (pairs : List Pair) (bs i : ℕ)
    (condResp dirResp : String) (pair : Pair)
    (hq : pair.question ≠ "") (ha : pair.answer ≠ "") :
    (x < 33/100 → tierOf x = Tier.easy)
  ∧ (33/100 ≤ x → x < 67/100 → tierOf x = Tier.medium)
  ∧ (67/100 ≤ x → tierOf x = Tier.hard)
  ∧ tierOf (33/100) = Tier.medium
  ∧ ((calculate_batch_ifd_scores configured cO dO pairs bs)[i]?.map fun sp => sp.tier)
      = pairs[i]?.map (fun _ => tierOf (batchIfdRaw
          ((phaseScoresOf configured cO pairs bs).getD i (1/2))
          ((phaseScoresOf configured dO pairs bs).getD i (1/2))))
  ∧ (calculate_ifd_score true (Except.ok condResp) (Except.ok dirResp) pair).tier
      = tierOf (singleIfdRaw ((firstDigit condResp : ℚ) / 10)
          ((firstDigit dirResp : ℚ) / 10)) := by
  refine ⟨tierOf_of_lt, tierOf_of_mid, tierOf_of_ge,
    tierOf_of_mid le_rfl (by norm_num), ?_, ?_⟩
  · rw [calculate_batch_getElem?]
    cases pairs[i]? <;> rfl
  · rw [calculate_ifd_score_success hq ha, singleSuccess_tier]

/-- C8 witness: the amended statement applied at concrete scores 0.2, 0.5,
0.9 and 0.33, and at a concrete batch input and single-pair call. -/
theorem tier_thresholds_amended_witness :
    tierOf (1/5) = Tier.easy
  ∧ tierOf (1/2) = Tier.medium
  ∧ tierOf (9/10) = Tier.hard
  ∧ tierOf (33/100) = Tier.medium
  ∧ ((calculate_batch_ifd_scores true errOracle errOracle [exPair] 10)[0]?.map fun sp =>
        sp.tier)
      = ([exPair] : List Pair)[0]?.map (fun _ => tierOf (batchIfdRaw
          ((phaseScoresOf true errOracle [exPair] 10).getD 0 (1/2))
          ((phaseScoresOf true errOracle [exPair] 10).getD 0 (1/2))))
  ∧ (calculate_ifd_score true (Except.ok "7") (Except.ok "7") exPair).tier
      = tierOf (singleIfdRaw ((firstDigit "7" : ℚ) / 10) ((firstDigit "7" : ℚ) / 10)) :=
  ⟨(tier_thresholds_amended (1/5) true errOracle errOracle [exPair] 10 0 "7" "7" exPair
      (by decide) (by decide)).1 (by norm_num),
   (tier_thresholds_amended (1/2) true errOracle errOracle [exPair] 10 0 "7" "7" exPair
      (by decide) (by decide)).2.1 (by norm_num) (by norm_num),
   (tier_thresholds_amended (9/10) true errOracle errOracle [exPair] 10 0 "7" "7" exPair
      (by decide) (by decide)).2.2.1 (by norm_num),
   (tier_thresholds_amended (33/100) true errOracle errOracle [exPair] 10 0 "7" "7" exPair
      (by decide) (by decide)).2.2.2.1,
   (tier_thresholds_amended (1/5) true errOracle errOracle [exPair] 10 0 "7" "7" exPair
      (by decide) (by decide)).2.2.2.2.1,
   (tier_thresholds_amended (1/5) true errOracle errOracle [exPair] 10 0 "7" "7" exPair
      (by decide) (by decide)).2.2.2.2.2⟩

/-- C9: whenever a step of single-pair API scoring fails (either upstream call
raises), no error propagates: the result is the heuristic estimate
`clamp(0,1, 0.3·(unique words ÷ total words) + 0.3·(technical matches ÷ total
words) + 0.4·min(word_count/200, 1))` over the answer (rounded to three
decimals), with conditioned and direct scores reported as 0.0 and the
triggering error message carried in the recommendation. -/
theorem heuristic_fallback_formula (pair : Pair) (configured : Bool)
    (cU dU : Except String String) (e : String)
    (hq : pair.question ≠ "") (ha : pair.answer ≠ "")
    (hfail : chat configured cU = Except.error e
      ∨ ∃ s, chat configured cU = Except.ok s ∧ chat configured dU = Except.error e) :
    calculate_ifd_score configured cU dU pair = heuristicFallback pair.answer e
  ∧ heuristicFallback pair.answer e
      = { ifd_score := round3 (clamp01
            ((((wordsOf pair.answer).dedup.length : ℚ) / ((wordsOf pair.answer).length : ℚ))
                * (3/10)
              + ((techCount pair.answer : ℚ) / ((wordsOf pair.answer).length : ℚ)) * (3/10)
              + (min (((wordsOf pair.answer).length : ℚ) / 200) 1) * (4/10)))
          conditioned_score := 0
          direct_score := 0
          tier := Tier.medium
          value_category := Category.medium
          recommendation := "Heuristic scoring: " ++ e } := by
  constructor
  · rcases hfail with hc | ⟨s, hcs, hds⟩
    · exact calculate_ifd_score_condErr hq ha hc dU
    · exact calculate_ifd_score_dirErr hq ha hcs hds
  · unfold heuristicFallback
    rw [estimate_formula, round3_zero]

/-- C9 witness: the statement at a concrete pair with a failing conditioned
call (translated error message "API error: boom"). -/
theorem heuristic_fallback_formula_witness :
    (exPair.question ≠ "" ∧ exPair.answer ≠ ""
  ∧ chat true (Except.error "boom") = Except.error "API error: boom")
  ∧ (calculate_ifd_score true (Except.error "boom") (Except.ok "5") exPair
      = heuristicFallback exPair.answer "API error: boom"
  ∧ heuristicFallback exPair.answer "API error: boom"
      = { ifd_score := round3 (clamp01
            ((((wordsOf exPair.answer).dedup.length : ℚ) / ((wordsOf exPair.answer).length : ℚ))
                * (3/10)
              + ((techCount exPair.answer : ℚ) / ((wordsOf exPair.answer).length : ℚ)) * (3/10)
              + (min (((wordsOf exPair.answer).length : ℚ) / 200) 1) * (4/10)))
          conditioned_score := 0
          direct_score := 0
          tier := Tier.medium
          value_category := Category.medium
          recommendation := "Heuristic scoring: " ++ "API error: boom" }) :=
  ⟨⟨by decide, by decide, rfl⟩,
    heuristic_fallback_formula exPair true (Except.error "boom") (Except.ok "5")
      "API error: boom" (by decide) (by decide) (Or.inl rfl)⟩

/-- C7 witness: the invariants at a concrete one-pair input, including the
score range extracted for the concrete member of the batch output. -/
theorem scoring_output_invariants_witness :
    (calculate_batch_ifd_scores true errOracle errOracle [exPair] 10).length
        = ([exPair] : List Pair).length
  ∧ (0 ≤ (finalizePair exPair (1/2) (1/2)).ifd_score
      ∧ (finalizePair exPair (1/2) (1/2)).ifd_score ≤ 1) :=
  ⟨(scoring_output_invariants true errOracle errOracle errOracle errOracle [exPair] 10 0).1,
   (scoring_output_invariants true errOracle errOracle errOracle errOracle [exPair] 10 0).2.2.1
     (finalizePair exPair (1/2) (1/2))
     (show _ ∈ [finalizePair exPair (1/2) (1/2)] from List.mem_singleton.mpr rfl)⟩

end QnaScoring
